import Mathlib

/-!
Verification development for the QuickScan detection orchestration and
report derivation engine.

The definitions below are a shallow embedding of the TypeScript source:

* `src/src/components/detection/DetectionPage.tsx` — the orchestrator
  (`startDetection`, `runAutomaticDetection`, `handleTestComplete`,
  `handleTestSkip`, `continueFromNextStep`, `finishDetection`);
* `src/src/components/report/ReportPage.tsx` — the issue classifier
  (`collectIssues`);
* `src/src/types/index.ts` — the declared `DetectionStatus` type;
* the `StatusBadge` component — its status-to-badge configuration table.

JavaScript numbers are modelled as `ℚ` (all arithmetic performed by the
program on the modelled paths is exact in binary floating point, see the
comments at `overallScore`), `Math.round` as `jsRound` — floor of
`x + 1/2`, provably equal to Mathlib's `round` — strings as `String`,
and fallible async probe calls as `Except Unit` values supplied as
inputs to the run.
Presentation-only report fields (ids, timestamps, localized label texts,
icons, device-overview / raw-data blobs) are omitted: no claim mentions
them and they do not feed the score or the classifier.

React state-update semantics are modelled explicitly: `setSteps(prev =>
…)` / `setInteractiveResults(prev => …)` advance the component state
(the `SessionState` evolution below), but a handler reads the `steps`
and `interactiveResults` *variables* of the render closure it was
created in.  Since `finishDetection` is only ever reached through the
speaker test's resume handler, the report is assembled from that
render's snapshot (`speakerRenderSnapshot`, missing the speaker and
sensors updates), not from the final state — see `programReport`.
-/

/-- Status values actually stored in the per-step ledger by the
orchestrator.  Note `skipped` is stored by `handleTestSkip` even though
the declared `DetectionStatus` union in `types/index.ts` does not list
it (see `declaredDetectionStatus`). -/
inductive LedgerStatus where
  | pending
  | testing
  | passed
  | warning
  | failed
  | skipped
deriving DecidableEq, Repr

/-- The declared `DetectionStatus` union from `src/src/types/index.ts`:
`'pending' | 'testing' | 'passed' | 'warning' | 'failed'`.  `skipped`
is not a member. -/
def declaredDetectionStatus : LedgerStatus → Bool
  | .pending => true
  | .testing => true
  | .passed => true
  | .warning => true
  | .failed => true
  | .skipped => false

/-- The `config` lookup table of the `StatusBadge` component.  Indexing a
JavaScript object with a key that has no entry yields `undefined`, hence
the `Option`: `skipped` has no entry.  The stored value is the badge's
CSS class name. -/
def statusBadgeConfig : LedgerStatus → Option String
  | .passed => some "status-passed"
  | .warning => some "status-warning"
  | .failed => some "status-failed"
  | .pending => some "status-pending"
  | .testing => some "status-testing"
  | .skipped => none

/-- Identities of the twelve steps of the fixed step catalog declared in
`DetectionPage.tsx`. -/
inductive StepId where
  | hardware
  | battery
  | storage
  | refurbishment
  | network
  | screen
  | keyboard
  | trackpad
  | camera
  | microphone
  | speaker
  | sensors
deriving DecidableEq, Repr

/-- The step catalog, in execution order (the `steps` state array). -/
def catalog : List StepId :=
  [.hardware, .battery, .storage, .refurbishment, .network,
   .screen, .keyboard, .trackpad, .camera, .microphone, .speaker, .sensors]

/-- The `isInteractive` flag of each catalog entry. -/
def isInteractiveStep : StepId → Bool
  | .screen => true
  | .keyboard => true
  | .trackpad => true
  | .camera => true
  | .microphone => true
  | .speaker => true
  | _ => false

/-! ## Probe data (external interface shapes from `DetectionPage.tsx`) -/

/-- Shape of `get_hardware_info` results (only the fields the
orchestrator reads). -/
structure HardwareData where
  cpu_model : String
  cpu_cores : ℤ
  memory_total : ℚ
  serial_number : String
  os_name : String
  os_version : String
  hostname : String
deriving DecidableEq, Repr

/-- Shape of `get_battery_info` results (`BatteryData` in the source). -/
structure BatteryData where
  health : ℚ
  cycle_count : ℤ
  design_capacity : ℚ
  max_capacity : ℚ
  current_capacity : ℚ
  is_charging : Bool
deriving DecidableEq, Repr

/-- Shape of `get_storage_health` results (`StorageData` in the source). -/
structure StorageData where
  model : String
  smart_status : String
deriving DecidableEq, Repr

/-- One refurbishment indicator.  `severity` is a raw string in the probe
payload (`'info' | 'warning' | 'critical'` by convention). -/
structure Indicator where
  name : String
  detected : Bool
  description : String
  severity : String
deriving DecidableEq, Repr

/-- The `details` record of `check_refurbishment` results. -/
structure RefurbDetails where
  serial_manufacture_date : Option String
  os_install_date : Option String
  battery_manufacture_date : Option String
  storage_first_use_date : Option String
  date_mismatch : Bool
  refurb_program : Option String
deriving DecidableEq, Repr

/-- Shape of `check_refurbishment` results (`RefurbishmentData` in the
source). -/
structure RefurbishmentData where
  is_refurbished : Bool
  confidence : String
  indicators : List Indicator
  replaced_parts : List String
  details : RefurbDetails
deriving DecidableEq, Repr

/-- Shape of `get_network_info` results. -/
structure NetworkData where
  wifi_enabled : Bool
  bluetooth_available : Bool
deriving DecidableEq, Repr

/-- The outcomes of the five fallible probe invocations of one run.
`Except.error` models a rejected promise (a thrown exception at the
`await`); `Option` models a `null` payload where the source checks for
one. -/
structure Env where
  hardware : Except Unit HardwareData
  battery : Except Unit (Option BatteryData)
  storage : Except Unit (Option StorageData)
  refurb : Except Unit RefurbishmentData
  network : Except Unit NetworkData
deriving Repr

/-! ## Small JavaScript helpers -/

/-- `String.prototype.toLowerCase` (ASCII-adequate for the SMART status
strings involved), as a character-wise map. -/
def strToLower (s : String) : String := ⟨s.data.map Char.toLower⟩

/-- `Math.round`: floor of `x + 1/2` (JavaScript rounds halves towards
positive infinity), written with the executable `Rat.floor`.
`jsRound_eq_round` below identifies it with Mathlib's `round`. -/
def jsRound (q : ℚ) : ℤ := Rat.floor (q + 1/2)

/-- Containment of `sub` as a contiguous sublist. -/
def listContains (sub : List Char) : List Char → Bool
  | [] => sub.isEmpty
  | c :: rest => List.isPrefixOf sub (c :: rest) || listContains sub rest

/-- `String.prototype.includes`: substring containment. -/
def strIncludes (s sub : String) : Bool := listContains sub.data s.data

/-- JavaScript `x || d` for an optionally-present number `x`: `undefined`
and `0` are falsy and fall back to the default. -/
def jsOrQ (x : Option ℚ) (d : ℚ) : ℚ :=
  match x with
  | some v => if v = 0 then d else v
  | none => d

/-! ## Per-step status derivation (the bodies of the
`runAutomaticDetection` switch cases) -/

/-- Hardware case: any successful probe result is `passed`; a thrown
probe error reaches the outer `catch` and marks the step `failed`. -/
def hardwareLedgerStatus : Except Unit HardwareData → LedgerStatus
  | .ok _ => .passed
  | .error _ => .failed

/-- Battery case: `Math.round(battery.health)` is compared against 80 and
60; a `null` payload or a thrown probe error yields `warning`. -/
def batteryLedgerStatus : Except Unit (Option BatteryData) → LedgerStatus
  | .ok (some b) =>
      let healthPercent : ℤ := jsRound b.health
      if healthPercent ≥ 80 then .passed
      else if healthPercent ≥ 60 then .warning
      else .failed
  | .ok none => .warning
  | .error _ => .warning

/-- The storage success condition:
`smart_status.toLowerCase().includes('verified') ||
 smart_status.toLowerCase().includes('healthy')`. -/
def smartIndicatesHealthy (smart : String) : Bool :=
  strIncludes (strToLower smart) "verified" || strIncludes (strToLower smart) "healthy"

/-- Storage case: healthy/verified SMART text is `passed`, anything else
`warning`; a `null` payload or a thrown probe error is optimistically
`passed` (`SMART: OK`). -/
def storageLedgerStatus : Except Unit (Option StorageData) → LedgerStatus
  | .ok (some sd) => if smartIndicatesHealthy sd.smart_status then .passed else .warning
  | .ok none => .passed
  | .error _ => .passed

/-- Refurbishment case: a detected refurbishment with at least one
warning/critical indicator is `warning`, otherwise `passed`; a thrown
probe error is `passed` ("not detected"). -/
def refurbLedgerStatus : Except Unit RefurbishmentData → LedgerStatus
  | .ok r =>
      if r.is_refurbished then
        let warningCount :=
          (r.indicators.filter (fun i => i.severity = "warning" || i.severity = "critical")).length
        if warningCount > 0 then .warning else .passed
      else .passed
  | .error _ => .passed

/-- Network case: `passed` whether the probe succeeds or throws (the
inner `catch` still marks `passed`). -/
def networkLedgerStatus : Except Unit NetworkData → LedgerStatus
  | _ => .passed

/-! ## Session state -/

/-- `interactiveResults.screen` state. -/
structure ScreenRes where
  tested : Bool
  skipped : Bool
  hasDeadPixel : Bool
deriving DecidableEq, Repr

/-- `interactiveResults.keyboard` state. -/
structure KeyboardRes where
  tested : Bool
  skipped : Bool
  testedCount : ℤ
  totalKeys : ℤ
deriving DecidableEq, Repr

/-- `interactiveResults.trackpad` state. -/
structure TrackpadRes where
  tested : Bool
  skipped : Bool
  click : Bool
  drag : Bool
  gesture : Bool
deriving DecidableEq, Repr

/-- `interactiveResults.camera` / `.microphone` state. -/
structure WorkingRes where
  tested : Bool
  skipped : Bool
  working : Bool
deriving DecidableEq, Repr

/-- `interactiveResults.speaker` state. -/
structure SpeakerRes where
  tested : Bool
  skipped : Bool
  left : Bool
  right : Bool
deriving DecidableEq, Repr

/-- The `interactiveResults` React state object. -/
structure InteractiveResults where
  screen : ScreenRes
  keyboard : KeyboardRes
  trackpad : TrackpadRes
  camera : WorkingRes
  microphone : WorkingRes
  speaker : SpeakerRes
deriving DecidableEq, Repr

/-- Initial value of `interactiveResults`. -/
def initialInteractiveResults : InteractiveResults where
  screen := ⟨false, false, false⟩
  keyboard := ⟨false, false, 0, 78⟩
  trackpad := ⟨false, false, true, true, true⟩
  camera := ⟨false, false, true⟩
  microphone := ⟨false, false, true⟩
  speaker := ⟨false, false, true, true⟩

/-- The mutable session owned by `DetectionPage` for one run: the ledger
(the `status` fields of the `steps` array), the currently rendered
interactive test (`activeTest`), the accumulated raw probe data, the
interactive outcomes, and whether `finishDetection` has run (the
completed run state). -/
structure SessionState where
  ledger : StepId → LedgerStatus
  activeTest : Option StepId
  hardwareData : Option HardwareData
  batteryData : Option BatteryData
  storageData : Option StorageData
  refurbishmentData : Option RefurbishmentData
  interactive : InteractiveResults
  finished : Bool

/-- Fresh session: every catalog step `pending`, no active test, no data. -/
def initialSession : SessionState where
  ledger := fun _ => .pending
  activeTest := none
  hardwareData := none
  batteryData := none
  storageData := none
  refurbishmentData := none
  interactive := initialInteractiveResults
  finished := false

/-- `updateStepStatus`: rewrite one step's ledger status. -/
def updateStepStatus (st : SessionState) (id : StepId) (s : LedgerStatus) : SessionState :=
  { st with ledger := fun x => if x = id then s else st.ledger x }

/-- The `setHardwareData` effect of the hardware case: a successful
probe stores its payload, a thrown one leaves the previous value. -/
def hardwareDataOf (e : Except Unit HardwareData) (old : Option HardwareData) :
    Option HardwareData :=
  match e with
  | .ok info => some info
  | .error _ => old

/-- The `setBatteryData` effect of the battery case: stored only for a
successful probe with a non-null payload. -/
def batteryDataOf (e : Except Unit (Option BatteryData)) (old : Option BatteryData) :
    Option BatteryData :=
  match e with
  | .ok (some b) => some b
  | _ => old

/-- The `setStorageData` effect of the storage case. -/
def storageDataOf (e : Except Unit (Option StorageData)) (old : Option StorageData) :
    Option StorageData :=
  match e with
  | .ok (some sd) => some sd
  | _ => old

/-- The `setRefurbishmentData` effect of the refurbishment case. -/
def refurbDataOf (e : Except Unit RefurbishmentData) (old : Option RefurbishmentData) :
    Option RefurbishmentData :=
  match e with
  | .ok r => some r
  | .error _ => old

/-- `runAutomaticDetection`: set the step `testing`, invoke the probe,
then record the derived final status and the raw data.  The transient
`testing` write is immediately overwritten within the same call, so the
returned state carries the final status. -/
def runAutomaticDetection (env : Env) (st : SessionState) (stepId : StepId) : SessionState :=
  let st := updateStepStatus st stepId .testing
  match stepId with
  | .hardware =>
      let st := updateStepStatus st .hardware (hardwareLedgerStatus env.hardware)
      { st with hardwareData := hardwareDataOf env.hardware st.hardwareData }
  | .battery =>
      let st := updateStepStatus st .battery (batteryLedgerStatus env.battery)
      { st with batteryData := batteryDataOf env.battery st.batteryData }
  | .storage =>
      let st := updateStepStatus st .storage (storageLedgerStatus env.storage)
      { st with storageData := storageDataOf env.storage st.storageData }
  | .refurbishment =>
      let st := updateStepStatus st .refurbishment (refurbLedgerStatus env.refurb)
      { st with refurbishmentData := refurbDataOf env.refurb st.refurbishmentData }
  | .network => updateStepStatus st .network (networkLedgerStatus env.network)
  | .sensors => updateStepStatus st .sensors .passed
  | other => updateStepStatus st other .passed

/-- The `for` loop shared by `startDetection` and
`continueFromNextStep`: run automatic steps in order; at the first
interactive step set `activeTest` and return (the suspension point); at
the end of the catalog reach `finishDetection` (modelled by the
`finished` flag; the report itself is assembled by `finishDetection`
below). -/
def runSteps (env : Env) : SessionState → List StepId → SessionState
  | st, [] => { st with finished := true }
  | st, s :: rest =>
      if isInteractiveStep s then { st with activeTest := some s }
      else runSteps env (runAutomaticDetection env st s) rest

/-- `startDetection`: drive the catalog from the first step. -/
def startDetection (env : Env) (st : SessionState) : SessionState :=
  runSteps env st catalog

/-- `continueFromNextStep`: find the step in the catalog and resume from
the one after it; an id absent from the catalog returns unchanged
(`stepIndex === -1`). -/
def continueFromNextStep (env : Env) (st : SessionState) (currentTestId : StepId) : SessionState :=
  match catalog.findIdx? (fun s => s = currentTestId) with
  | none => st
  | some i => runSteps env st (catalog.drop (i + 1))

/-- The result payload delivered by an interactive test's `onComplete`
callback, tagged by which test produced it (the source passes it as
`unknown` and casts inside the per-test `switch` case). -/
inductive InteractiveOutcome where
  | screen (hasDeadPixel : Bool)
  | keyboard (allPassed : Bool) (testedCount : ℤ) (totalKeys : ℤ)
  | trackpad (click : Bool) (drag : Bool) (gesture : Bool)
  | camera (working : Bool)
  | microphone (working : Bool)
  | speaker (left : Bool) (right : Bool)
deriving DecidableEq, Repr

/-- `handleTestComplete(testId, result)`: clear `activeTest`, record the
outcome into `interactiveResults` and the ledger for the *named* test id
(no comparison against the previously active test is made), then
continue from the step after `testId`.  The catch-all arm covers a
`testId` outside the six interactive cases (the switch falls through
doing nothing) and a payload of a shape other than the one the named
case casts to (never produced by the UI wiring, which always passes the
matching shape). -/
def handleTestComplete (env : Env) (st : SessionState) (testId : StepId)
    (result : InteractiveOutcome) : SessionState :=
  let st := { st with activeTest := none }
  let st :=
    match testId, result with
    | .screen, .screen hasDeadPixel =>
        let st := { st with interactive :=
          { st.interactive with screen :=
            { st.interactive.screen with tested := true, hasDeadPixel := hasDeadPixel } } }
        updateStepStatus st .screen (if hasDeadPixel then .warning else .passed)
    | .keyboard, .keyboard allPassed testedCount totalKeys =>
        let st := { st with interactive :=
          { st.interactive with keyboard :=
            { st.interactive.keyboard with
              tested := true, testedCount := testedCount, totalKeys := totalKeys } } }
        updateStepStatus st .keyboard (if allPassed then .passed else .warning)
    | .trackpad, .trackpad click drag gesture =>
        let st := { st with interactive :=
          { st.interactive with trackpad :=
            { st.interactive.trackpad with
              tested := true, click := click, drag := drag, gesture := gesture } } }
        updateStepStatus st .trackpad (if click && drag && gesture then .passed else .warning)
    | .camera, .camera working =>
        let st := { st with interactive :=
          { st.interactive with camera :=
            { st.interactive.camera with tested := true, working := working } } }
        updateStepStatus st .camera (if working then .passed else .failed)
    | .microphone, .microphone working =>
        let st := { st with interactive :=
          { st.interactive with microphone :=
            { st.interactive.microphone with tested := true, working := working } } }
        updateStepStatus st .microphone (if working then .passed else .failed)
    | .speaker, .speaker left right =>
        let st := { st with interactive :=
          { st.interactive with speaker :=
            { st.interactive.speaker with tested := true, left := left, right := right } } }
        updateStepStatus st .speaker (if left && right then .passed else .warning)
    | _, _ => st
  continueFromNextStep env st testId

/-- `handleTestSkip(testId)`: clear `activeTest`, unconditionally mark
the named step `skipped` (again no comparison against the active test),
record the skip in `interactiveResults` when the id is one of the six
interactive tests, then continue from the step after `testId`. -/
def handleTestSkip (env : Env) (st : SessionState) (testId : StepId) : SessionState :=
  let st := { st with activeTest := none }
  let st := updateStepStatus st testId .skipped
  let st :=
    match testId with
    | .screen => { st with interactive :=
        { st.interactive with screen := { st.interactive.screen with skipped := true } } }
    | .keyboard => { st with interactive :=
        { st.interactive with keyboard := { st.interactive.keyboard with skipped := true } } }
    | .trackpad => { st with interactive :=
        { st.interactive with trackpad := { st.interactive.trackpad with skipped := true } } }
    | .camera => { st with interactive :=
        { st.interactive with camera := { st.interactive.camera with skipped := true } } }
    | .microphone => { st with interactive :=
        { st.interactive with microphone := { st.interactive.microphone with skipped := true } } }
    | .speaker => { st with interactive :=
        { st.interactive with speaker := { st.interactive.speaker with skipped := true } } }
    | _ => st
  continueFromNextStep env st testId

/-! ## Driving one complete run -/

/-- The external inputs of one run: the probe outcomes plus, for each
interactive step, either a completed outcome payload (`some`) or a skip
(`none`). -/
structure RunInputs where
  env : Env
  screen : Option Bool
  keyboard : Option (Bool × ℤ × ℤ)
  trackpad : Option (Bool × Bool × Bool)
  camera : Option Bool
  microphone : Option Bool
  speaker : Option (Bool × Bool)

/-- Deliver the input for interactive step `s` through the callback the
UI wires for it (`onComplete` with the matching payload shape, or
`onSkip`). -/
def applySignal (inp : RunInputs) (s : StepId) (st : SessionState) : SessionState :=
  match s with
  | .screen =>
      match inp.screen with
      | some d => handleTestComplete inp.env st .screen (.screen d)
      | none => handleTestSkip inp.env st .screen
  | .keyboard =>
      match inp.keyboard with
      | some (a, tc, tk) => handleTestComplete inp.env st .keyboard (.keyboard a tc tk)
      | none => handleTestSkip inp.env st .keyboard
  | .trackpad =>
      match inp.trackpad with
      | some (c, d, g) => handleTestComplete inp.env st .trackpad (.trackpad c d g)
      | none => handleTestSkip inp.env st .trackpad
  | .camera =>
      match inp.camera with
      | some w => handleTestComplete inp.env st .camera (.camera w)
      | none => handleTestSkip inp.env st .camera
  | .microphone =>
      match inp.microphone with
      | some w => handleTestComplete inp.env st .microphone (.microphone w)
      | none => handleTestSkip inp.env st .microphone
  | .speaker =>
      match inp.speaker with
      | some (l, r) => handleTestComplete inp.env st .speaker (.speaker l r)
      | none => handleTestSkip inp.env st .speaker
  | _ => st

/-- Resume the run once if it is suspended at an interactive step. -/
def resumeOnce (inp : RunInputs) (st : SessionState) : SessionState :=
  match st.activeTest with
  | some s => applySignal inp s st
  | none => st

/-- The session state committed to the render that mounts the speaker
test: `startDetection` followed by a resume for each of the five
earlier interactive steps.  This is the state the speaker test's
`onComplete` / `onSkip` closures capture — the render whose
`handleTestComplete` / `handleTestSkip`, `continueFromNextStep` and
`finishDetection` run the end of the run.  Because `updateStepStatus`
and `setInteractiveResults` only update React state for *later*
renders, the `steps` and `interactiveResults` variables read by that
render's `finishDetection` are exactly this snapshot: the speaker and
sensors steps are still `pending` in it and its
`interactiveResults.speaker` is still the initial value. -/
def speakerRenderSnapshot (inp : RunInputs) : SessionState :=
  resumeOnce inp (resumeOnce inp (resumeOnce inp (resumeOnce inp
    (resumeOnce inp (startDetection inp.env initialSession)))))

/-- One complete run of the React state: the speaker-render snapshot
followed by the speaker resume (whose functional state updates, plus
the sensors update, do land in the true component state). -/
def runFull (inp : RunInputs) : SessionState :=
  resumeOnce inp (speakerRenderSnapshot inp)

/-! ## Report assembly (`finishDetection`) -/

/-- Number of catalog steps whose ledger status is `s` (the
`steps.filter(...).length` counts of `finishDetection`). -/
def statusCount (ledger : StepId → LedgerStatus) (s : LedgerStatus) : ℕ :=
  (catalog.filter (fun x => ledger x = s)).length

/-- The score formula of `finishDetection`:
`Math.round(((passedCount + warningCount * 0.5) / steps.length) * 100)`.
All intermediate values are exactly representable in binary floating
point at every rounding boundary (the quotients are the dyadic rationals
`k/8` there), so the `ℚ` computation agrees with the JavaScript one. -/
def overallScore (ledger : StepId → LedgerStatus) : ℤ :=
  jsRound ((((statusCount ledger .passed : ℚ) + (statusCount ledger .warning : ℚ) * 0.5)
    / (catalog.length : ℚ)) * 100)

/-- JavaScript `x || d` for an optionally-present string: `undefined` and
the empty string are falsy. -/
def jsOrStr (x : Option String) (d : String) : String :=
  match x with
  | some v => if v = "" then d else v
  | none => d

/-- Report battery section (`BatteryInfo` in `types/index.ts`). -/
structure BatteryInfo where
  health : ℚ
  cycleCount : ℤ
  designCapacity : ℚ
  currentCapacity : ℚ
  isCharging : Bool
  rating : String
deriving DecidableEq, Repr

/-- Report storage section (`StorageInfo` in `types/index.ts`). -/
structure StorageInfo where
  model : String
  capacity : ℤ
  used : ℤ
  smartStatus : String
  powerOnHours : ℤ
deriving DecidableEq, Repr

/-- Report screen outcome. -/
structure ScreenOutcome where
  tested : Bool
  skipped : Bool
  hasDeadPixel : Bool
deriving DecidableEq, Repr

/-- Report keyboard outcome.  `finishDetection` hardcodes
`testedKeys: []` and `failedKeys: []`. -/
structure KeyboardOutcome where
  tested : Bool
  skipped : Bool
  testedKeys : List String
  totalKeys : ℤ
  failedKeys : List String
deriving DecidableEq, Repr

/-- Report trackpad outcome. -/
structure TrackpadOutcome where
  tested : Bool
  skipped : Bool
  clickWorking : Bool
  dragWorking : Bool
  gestureWorking : Bool
deriving DecidableEq, Repr

/-- Report camera / microphone outcome. -/
structure WorkingOutcome where
  tested : Bool
  skipped : Bool
  working : Bool
deriving DecidableEq, Repr

/-- Report speaker outcome. -/
structure SpeakerOutcome where
  tested : Bool
  skipped : Bool
  leftChannel : Bool
  rightChannel : Bool
deriving DecidableEq, Repr

/-- Report interactive section (`InteractiveTestResult`). -/
structure InteractiveTestResult where
  screen : ScreenOutcome
  keyboard : KeyboardOutcome
  trackpad : TrackpadOutcome
  camera : WorkingOutcome
  microphone : WorkingOutcome
  speaker : SpeakerOutcome
deriving DecidableEq, Repr

/-- Report refurbishment details (`RefurbishmentInfo.details`). -/
structure RefurbDetailsInfo where
  serialManufactureDate : Option String
  osInstallDate : Option String
  batteryManufactureDate : Option String
  storageFirstUseDate : Option String
  dateMismatch : Bool
  refurbProgram : Option String
deriving DecidableEq, Repr

/-- Report refurbishment section (`RefurbishmentInfo`). -/
structure RefurbishmentInfo where
  isRefurbished : Bool
  confidence : String
  indicators : List Indicator
  replacedParts : List String
  details : RefurbDetailsInfo
deriving DecidableEq, Repr

/-- The assembled report (`DetectionReport`), restricted to the fields
the score and the issue classifier consume plus the summary counts.
Identity, timestamp, device overview, hardware / system / network /
sensors sections and the raw-data blob are presentational and omitted. -/
structure DetectionReport where
  overallScore : ℤ
  summaryPassed : ℕ
  summaryWarning : ℕ
  summaryFailed : ℕ
  battery : BatteryInfo
  storage : StorageInfo
  interactive : InteractiveTestResult
  refurbishment : Option RefurbishmentInfo
deriving DecidableEq, Repr

/-- The `smartStatus` ternary of `finishDetection`:
`storageData?.smart_status === 'Verified' ? 'healthy' : 'warning'`.
A missing probe result compares unequal to `'Verified'`. -/
def assembleSmartStatus (o : Option StorageData) : String :=
  match o with
  | some sd => if sd.smart_status = "Verified" then "healthy" else "warning"
  | none => "warning"

/-- `finishDetection`, report-assembly half: assemble the immutable
`DetectionReport` from the `steps`, `interactiveResults` and probe-data
variables visible to the calling closure.  Beware which state that is:
the program only ever reaches `finishDetection` through the speaker
test's resume handler, whose render closure still holds the
pre-speaker snapshot (`speakerRenderSnapshot`) — see `programReport`.
The data fields (`hardwareData` … `refurbishmentData`) are set before
the first suspension and are identical in snapshot and final state. -/
def finishDetection (st : SessionState) : DetectionReport :=
  let passedCount := statusCount st.ledger .passed
  let warningCount := statusCount st.ledger .warning
  let failedCount := statusCount st.ledger .failed
  { overallScore := overallScore st.ledger
    summaryPassed := passedCount
    summaryWarning := warningCount
    summaryFailed := failedCount
    battery :=
      { health := jsOrQ (st.batteryData.map (·.health)) 100
        cycleCount := (st.batteryData.map (·.cycle_count)).getD 0
        designCapacity := jsOrQ (st.batteryData.map (·.design_capacity)) 0
        currentCapacity := jsOrQ (st.batteryData.map (·.current_capacity)) 0
        isCharging := (st.batteryData.map (·.is_charging)).getD false
        rating :=
          if jsOrQ (st.batteryData.map (·.health)) 100 ≥ 80 then "excellent"
          else if jsOrQ (st.batteryData.map (·.health)) 100 ≥ 60 then "good"
          else "fair" }
    storage :=
      { model := jsOrStr (st.storageData.map (·.model)) "Unknown"
        capacity := 0
        used := 0
        smartStatus := assembleSmartStatus st.storageData
        powerOnHours := 0 }
    interactive :=
      { screen :=
          { tested := st.interactive.screen.tested
            skipped := st.interactive.screen.skipped
            hasDeadPixel := st.interactive.screen.hasDeadPixel }
        keyboard :=
          { tested := st.interactive.keyboard.tested
            skipped := st.interactive.keyboard.skipped
            testedKeys := []
            totalKeys := st.interactive.keyboard.totalKeys
            failedKeys := [] }
        trackpad :=
          { tested := st.interactive.trackpad.tested
            skipped := st.interactive.trackpad.skipped
            clickWorking := st.interactive.trackpad.click
            dragWorking := st.interactive.trackpad.drag
            gestureWorking := st.interactive.trackpad.gesture }
        camera :=
          { tested := st.interactive.camera.tested
            skipped := st.interactive.camera.skipped
            working := st.interactive.camera.working }
        microphone :=
          { tested := st.interactive.microphone.tested
            skipped := st.interactive.microphone.skipped
            working := st.interactive.microphone.working }
        speaker :=
          { tested := st.interactive.speaker.tested
            skipped := st.interactive.speaker.skipped
            leftChannel := st.interactive.speaker.left
            rightChannel := st.interactive.speaker.right } }
    refurbishment :=
      st.refurbishmentData.map (fun rd =>
        { isRefurbished := rd.is_refurbished
          confidence := rd.confidence
          indicators := rd.indicators
          replacedParts := rd.replaced_parts
          details :=
            { serialManufactureDate := rd.details.serial_manufacture_date
              osInstallDate := rd.details.os_install_date
              batteryManufactureDate := rd.details.battery_manufacture_date
              storageFirstUseDate := rd.details.storage_first_use_date
              dateMismatch := rd.details.date_mismatch
              refurbProgram := rd.details.refurb_program } }) }

/-- The report the program actually emits for one complete run.  The
call chain is: speaker `onComplete`/`onSkip` → that render's
`handleTestComplete`/`handleTestSkip` → `continueFromNextStep` →
`finishDetection`, all closures of the speaker-test render.  The
`setSteps(prev => …)` / `setInteractiveResults(prev => …)` calls made
along the way update React state for later renders only, so the
`steps` and `interactiveResults` this `finishDetection` reads are the
stale `speakerRenderSnapshot`, not the final session state. -/
def programReport (inp : RunInputs) : DetectionReport :=
  finishDetection (speakerRenderSnapshot inp)

/-! ## Issue classifier (`collectIssues` of `ReportPage.tsx`) -/

/-- Issue severity (`level` in the source). -/
inductive IssueLevel where
  | warning
  | failed
deriving DecidableEq, Repr

/-- One derived issue.  Localized title / description / suggestion texts
and the icon are presentational and omitted; `data` is the evidence
string the source attaches where it does. -/
structure Issue where
  category : String
  level : IssueLevel
  data : Option String
deriving DecidableEq, Repr

/-- Battery-health rule of `collectIssues`: health below 80 produces an
issue, `failed` below 60, `warning` otherwise. -/
def batteryHealthIssues (r : DetectionReport) : List Issue :=
  if r.battery.health < 80 then
    [{ category := "battery"
       level := if r.battery.health < 60 then .failed else .warning
       data := some (toString (jsRound r.battery.health) ++ "%") }]
  else []

/-- Battery-cycle rule: a cycle count above 500 produces an issue,
`failed` above 800, `warning` otherwise. -/
def batteryCycleIssues (r : DetectionReport) : List Issue :=
  if r.battery.cycleCount > 500 then
    [{ category := "battery"
       level := if r.battery.cycleCount > 800 then .failed else .warning
       data := some (toString r.battery.cycleCount ++ " cycles") }]
  else []

/-- Storage rule: any report `smartStatus` other than `healthy` is a
`failed` issue. -/
def storageIssues (r : DetectionReport) : List Issue :=
  if r.storage.smartStatus ≠ "healthy" then
    [{ category := "storage", level := .failed, data := some r.storage.smartStatus }]
  else []

/-- Screen rule: a dead pixel is a `warning` issue. -/
def screenIssues (r : DetectionReport) : List Issue :=
  if r.interactive.screen.hasDeadPixel then
    [{ category := "screen", level := .warning, data := none }]
  else []

/-- Keyboard rule: a tested-key fraction below 1 on a tested keyboard is
a `warning` issue (`testedKeys?.length || 0` over `totalKeys`, the
fraction defaulting to 1 when `totalKeys` is not positive). -/
def keyboardIssues (r : DetectionReport) : List Issue :=
  let testedFraction : ℚ :=
    if r.interactive.keyboard.totalKeys > 0 then
      (r.interactive.keyboard.testedKeys.length : ℚ) / (r.interactive.keyboard.totalKeys : ℚ)
    else 1
  if testedFraction < 1 then
    if r.interactive.keyboard.tested then
      [{ category := "keyboard", level := .warning, data := none }]
    else []
  else []

/-- Trackpad rule: on a tested trackpad, any failing sub-function
produces one `warning` issue naming the failures. -/
def trackpadIssues (r : DetectionReport) : List Issue :=
  if r.interactive.trackpad.tested then
    let trackpadFailures : List String :=
      (if !r.interactive.trackpad.clickWorking then ["click"] else [])
      ++ (if !r.interactive.trackpad.dragWorking then ["drag"] else [])
      ++ (if !r.interactive.trackpad.gestureWorking then ["gesture"] else [])
    if trackpadFailures.length > 0 then
      [{ category := "trackpad", level := .warning, data := none }]
    else []
  else []

/-- Camera rule: tested and not working is a `failed` issue. -/
def cameraIssues (r : DetectionReport) : List Issue :=
  if r.interactive.camera.tested && !r.interactive.camera.working then
    [{ category := "camera", level := .failed, data := none }]
  else []

/-- Microphone rule: tested and not working is a `failed` issue. -/
def microphoneIssues (r : DetectionReport) : List Issue :=
  if r.interactive.microphone.tested && !r.interactive.microphone.working then
    [{ category := "microphone", level := .failed, data := none }]
  else []

/-- Speaker rule: on a tested speaker, any failing channel produces one
`warning` issue naming the failing channels. -/
def speakerIssues (r : DetectionReport) : List Issue :=
  if r.interactive.speaker.tested then
    let speakerFailures : List String :=
      (if !r.interactive.speaker.leftChannel then ["left channel"] else [])
      ++ (if !r.interactive.speaker.rightChannel then ["right channel"] else [])
    if speakerFailures.length > 0 then
      [{ category := "speaker", level := .warning, data := none }]
    else []
  else []

/-- Refurbishment rules: for a detected refurbishment, one `warning`
issue per replaced part, then the certified-refurbishment program when
present (and non-empty — a falsy string is skipped), then one issue per
indicator of severity `warning` or `critical` (`critical` maps to
`failed`); `info` indicators are filtered out. -/
def refurbishmentIssues (r : DetectionReport) : List Issue :=
  match r.refurbishment with
  | some refurb =>
      if refurb.isRefurbished then
        (refurb.replacedParts.map (fun _part =>
          { category := "refurbishment", level := .warning, data := none }))
        ++ (match refurb.details.refurbProgram with
            | some prog =>
                if prog = "" then []
                else [{ category := "refurbishment", level := .warning, data := some prog }]
            | none => [])
        ++ ((refurb.indicators.filter
              (fun i => i.severity = "warning" || i.severity = "critical")).map (fun i =>
            { category := "refurbishment"
              level := if i.severity = "critical" then .failed else .warning
              data := none }))
      else []
  | none => []

/-- The issue classifier: the `issues.push` sequence of `collectIssues`
in `ReportPage.tsx`, as the concatenation of the per-rule segments in
source order. -/
def collectIssues (r : DetectionReport) : List Issue :=
  batteryHealthIssues r ++ batteryCycleIssues r ++ storageIssues r ++ screenIssues r
    ++ keyboardIssues r ++ trackpadIssues r ++ cameraIssues r ++ microphoneIssues r
    ++ speakerIssues r ++ refurbishmentIssues r

/-! ## Closed form of a complete run's ledger -/

/-- Final ledger status of the screen step given its resume input. -/
def screenFinalStatus : Option Bool → LedgerStatus
  | some d => if d then .warning else .passed
  | none => .skipped

/-- Final ledger status of the keyboard step. -/
def keyboardFinalStatus : Option (Bool × ℤ × ℤ) → LedgerStatus
  | some (a, _, _) => if a then .passed else .warning
  | none => .skipped

/-- Final ledger status of the trackpad step. -/
def trackpadFinalStatus : Option (Bool × Bool × Bool) → LedgerStatus
  | some (c, d, g) => if c && d && g then .passed else .warning
  | none => .skipped

/-- Final ledger status of the camera / microphone step. -/
def workingFinalStatus : Option Bool → LedgerStatus
  | some w => if w then .passed else .failed
  | none => .skipped

/-- Final ledger status of the speaker step. -/
def speakerFinalStatus : Option (Bool × Bool) → LedgerStatus
  | some (l, r) => if l && r then .passed else .warning
  | none => .skipped

/-- The ledger a complete run ends with, as a function of the run's
inputs. -/
def finalLedger (inp : RunInputs) : StepId → LedgerStatus
  | .hardware => hardwareLedgerStatus inp.env.hardware
  | .battery => batteryLedgerStatus inp.env.battery
  | .storage => storageLedgerStatus inp.env.storage
  | .refurbishment => refurbLedgerStatus inp.env.refurb
  | .network => .passed
  | .screen => screenFinalStatus inp.screen
  | .keyboard => keyboardFinalStatus inp.keyboard
  | .trackpad => trackpadFinalStatus inp.trackpad
  | .camera => workingFinalStatus inp.camera
  | .microphone => workingFinalStatus inp.microphone
  | .speaker => speakerFinalStatus inp.speaker
  | .sensors => .passed

/-- The ledger of the speaker-render snapshot: every step up to the
microphone already carries its final status, while the speaker and
sensors steps — decided only by the last resume handler, whose updates
the stale render closure never sees — are still `pending`. -/
def snapshotLedger (inp : RunInputs) : StepId → LedgerStatus
  | .speaker => .pending
  | .sensors => .pending
  | x => finalLedger inp x

/-- A status a run can leave behind at completion: neither `pending` nor
`testing`. -/
def isFinal : LedgerStatus → Bool
  | .pending => false
  | .testing => false
  | _ => true

/-- The position of each issue category in the fixed output order of
`collectIssues`: battery (health, then cycle count), storage, screen,
keyboard, trackpad, camera, microphone, speaker, refurbishment. -/
def catRank (c : String) : ℕ :=
  if c = "battery" then 0
  else if c = "storage" then 1
  else if c = "screen" then 2
  else if c = "keyboard" then 3
  else if c = "trackpad" then 4
  else if c = "camera" then 5
  else if c = "microphone" then 6
  else if c = "speaker" then 7
  else 8

/-- Drop every refurbishment indicator whose severity is `info` from a
report, leaving everything else unchanged. -/
def eraseInfoIndicators (r : DetectionReport) : DetectionReport :=
  { r with refurbishment := r.refurbishment.map (fun rf =>
      { rf with indicators := rf.indicators.filter (fun i => i.severity != "info") }) }

/-- A probe environment in which every automatic probe succeeds with
healthy values: full battery health, a `Verified` SMART status, and no
refurbishment detected. -/
def envAllGood : Env where
  hardware := .ok ⟨"TestCPU", 8, 17179869184, "SN12345", "macOS", "14.0", "host"⟩
  battery := .ok (some ⟨100, 10, 100, 100, 100, false⟩)
  storage := .ok (some ⟨"AP1024", "Verified"⟩)
  refurb := .ok ⟨false, "high", [], [], ⟨none, none, none, none, false, none⟩⟩
  network := .ok ⟨true, true⟩

/-- Run inputs for a fully successful run: all probes healthy and every
interactive test completed with a fully passing outcome (all 78 keyboard
keys registered). -/
def inputsAllPass : RunInputs where
  env := envAllGood
  screen := some false
  keyboard := some (true, 78, 78)
  trackpad := some (true, true, true)
  camera := some true
  microphone := some true
  speaker := some (true, true)

theorem resumeOnce_of_active (inp : RunInputs) (st : SessionState) (s : StepId)
    (h : st.activeTest = some s) : resumeOnce inp st = applySignal inp s st := by
  unfold resumeOnce
  rw [h]

theorem startDetection_activeTest (env : Env) (st : SessionState) :
    (startDetection env st).activeTest = some .screen := rfl

theorem startDetection_ledger (env : Env) (st : SessionState) (x : StepId) :
    (startDetection env st).ledger x =
      if x = .hardware then hardwareLedgerStatus env.hardware
      else if x = .battery then batteryLedgerStatus env.battery
      else if x = .storage then storageLedgerStatus env.storage
      else if x = .refurbishment then refurbLedgerStatus env.refurb
      else if x = .network then .passed
      else st.ledger x := by
  cases x <;> rfl

theorem applySignal_screen_activeTest (inp : RunInputs) (st : SessionState) :
    (applySignal inp .screen st).activeTest = some .keyboard := by
  rcases h : inp.screen with _ | d <;> simp only [applySignal, h] <;> rfl

theorem applySignal_screen_ledger (inp : RunInputs) (st : SessionState) (x : StepId) :
    (applySignal inp .screen st).ledger x =
      if x = .screen then screenFinalStatus inp.screen else st.ledger x := by
  rcases h : inp.screen with _ | d <;> simp only [applySignal, h] <;> cases x <;> rfl

theorem applySignal_keyboard_activeTest (inp : RunInputs) (st : SessionState) :
    (applySignal inp .keyboard st).activeTest = some .trackpad := by
  rcases h : inp.keyboard with _ | ⟨a, tc, tk⟩ <;> simp only [applySignal, h] <;> rfl

theorem applySignal_keyboard_ledger (inp : RunInputs) (st : SessionState) (x : StepId) :
    (applySignal inp .keyboard st).ledger x =
      if x = .keyboard then keyboardFinalStatus inp.keyboard else st.ledger x := by
  rcases h : inp.keyboard with _ | ⟨a, tc, tk⟩ <;> simp only [applySignal, h] <;> cases x <;> rfl

theorem applySignal_trackpad_activeTest (inp : RunInputs) (st : SessionState) :
    (applySignal inp .trackpad st).activeTest = some .camera := by
  rcases h : inp.trackpad with _ | ⟨c, d, g⟩ <;> simp only [applySignal, h] <;> rfl

theorem applySignal_trackpad_ledger (inp : RunInputs) (st : SessionState) (x : StepId) :
    (applySignal inp .trackpad st).ledger x =
      if x = .trackpad then trackpadFinalStatus inp.trackpad else st.ledger x := by
  rcases h : inp.trackpad with _ | ⟨c, d, g⟩ <;> simp only [applySignal, h] <;> cases x <;> rfl

theorem applySignal_camera_activeTest (inp : RunInputs) (st : SessionState) :
    (applySignal inp .camera st).activeTest = some .microphone := by
  cases h : inp.camera <;> simp only [applySignal, h] <;> rfl

theorem applySignal_camera_ledger (inp : RunInputs) (st : SessionState) (x : StepId) :
    (applySignal inp .camera st).ledger x =
      if x = .camera then workingFinalStatus inp.camera else st.ledger x := by
  cases h : inp.camera <;> simp only [applySignal, h] <;> cases x <;> rfl

theorem applySignal_microphone_activeTest (inp : RunInputs) (st : SessionState) :
    (applySignal inp .microphone st).activeTest = some .speaker := by
  cases h : inp.microphone <;> simp only [applySignal, h] <;> rfl

theorem applySignal_microphone_ledger (inp : RunInputs) (st : SessionState) (x : StepId) :
    (applySignal inp .microphone st).ledger x =
      if x = .microphone then workingFinalStatus inp.microphone else st.ledger x := by
  cases h : inp.microphone <;> simp only [applySignal, h] <;> cases x <;> rfl

theorem applySignal_speaker_activeTest (inp : RunInputs) (st : SessionState) :
    (applySignal inp .speaker st).activeTest = none := by
  rcases h : inp.speaker with _ | ⟨l, r⟩ <;> simp only [applySignal, h] <;> rfl

theorem applySignal_speaker_finished (inp : RunInputs) (st : SessionState) :
    (applySignal inp .speaker st).finished = true := by
  rcases h : inp.speaker with _ | ⟨l, r⟩ <;> simp only [applySignal, h] <;> rfl

theorem applySignal_speaker_ledger (inp : RunInputs) (st : SessionState) (x : StepId) :
    (applySignal inp .speaker st).ledger x =
      if x = .sensors then .passed
      else if x = .speaker then speakerFinalStatus inp.speaker
      else st.ledger x := by
  rcases h : inp.speaker with _ | ⟨l, r⟩ <;> simp only [applySignal, h] <;> cases x <;> rfl

theorem speakerRenderSnapshot_activeTest (inp : RunInputs) :
    (speakerRenderSnapshot inp).activeTest = some .speaker := by
  unfold speakerRenderSnapshot
  rw [resumeOnce_of_active inp _ _ (startDetection_activeTest inp.env initialSession),
    resumeOnce_of_active inp _ _ (applySignal_screen_activeTest inp _),
    resumeOnce_of_active inp _ _ (applySignal_keyboard_activeTest inp _),
    resumeOnce_of_active inp _ _ (applySignal_trackpad_activeTest inp _),
    resumeOnce_of_active inp _ _ (applySignal_camera_activeTest inp _),
    applySignal_microphone_activeTest]

theorem speakerRenderSnapshot_ledger (inp : RunInputs) (x : StepId) :
    (speakerRenderSnapshot inp).ledger x = snapshotLedger inp x := by
  unfold speakerRenderSnapshot
  rw [resumeOnce_of_active inp _ _ (startDetection_activeTest inp.env initialSession),
    resumeOnce_of_active inp _ _ (applySignal_screen_activeTest inp _),
    resumeOnce_of_active inp _ _ (applySignal_keyboard_activeTest inp _),
    resumeOnce_of_active inp _ _ (applySignal_trackpad_activeTest inp _),
    resumeOnce_of_active inp _ _ (applySignal_camera_activeTest inp _),
    applySignal_microphone_ledger, applySignal_camera_ledger,
    applySignal_trackpad_ledger, applySignal_keyboard_ledger, applySignal_screen_ledger,
    startDetection_ledger]
  cases x <;> rfl

theorem runFull_activeTest (inp : RunInputs) : (runFull inp).activeTest = none := by
  unfold runFull
  rw [resumeOnce_of_active inp _ _ (speakerRenderSnapshot_activeTest inp),
    applySignal_speaker_activeTest]

theorem runFull_finished (inp : RunInputs) : (runFull inp).finished = true := by
  unfold runFull
  rw [resumeOnce_of_active inp _ _ (speakerRenderSnapshot_activeTest inp),
    applySignal_speaker_finished]

theorem runFull_ledger (inp : RunInputs) (x : StepId) :
    (runFull inp).ledger x = finalLedger inp x := by
  unfold runFull
  rw [resumeOnce_of_active inp _ _ (speakerRenderSnapshot_activeTest inp),
    applySignal_speaker_ledger, speakerRenderSnapshot_ledger]
  cases x <;> rfl

theorem finalLedger_isFinal (inp : RunInputs) (x : StepId) :
    isFinal (finalLedger inp x) = true := by
  cases x
  case hardware =>
    rcases h : inp.env.hardware with u | d <;>
      simp only [finalLedger, hardwareLedgerStatus, h] <;> rfl
  case battery =>
    rcases h : inp.env.battery with u | (_ | b) <;>
      simp only [finalLedger, batteryLedgerStatus, h] <;>
      first | rfl | (split <;> first | rfl | (split <;> rfl))
  case storage =>
    rcases h : inp.env.storage with u | (_ | sd) <;>
      simp only [finalLedger, storageLedgerStatus, h] <;>
      first | rfl | (split <;> rfl)
  case refurbishment =>
    rcases h : inp.env.refurb with u | r <;>
      simp only [finalLedger, refurbLedgerStatus, h] <;>
      first | rfl | (split <;> first | rfl | (split <;> rfl))
  case network => rfl
  case screen =>
    rcases h : inp.screen with _ | d <;>
      simp only [finalLedger, screenFinalStatus, h] <;>
      first | rfl | (split <;> rfl)
  case keyboard =>
    rcases h : inp.keyboard with _ | ⟨a, tc, tk⟩ <;>
      simp only [finalLedger, keyboardFinalStatus, h] <;>
      first | rfl | (split <;> rfl)
  case trackpad =>
    rcases h : inp.trackpad with _ | ⟨c, d, g⟩ <;>
      simp only [finalLedger, trackpadFinalStatus, h] <;>
      first | rfl | (split <;> rfl)
  case camera =>
    rcases h : inp.camera with _ | w <;>
      simp only [finalLedger, workingFinalStatus, h] <;>
      first | rfl | (split <;> rfl)
  case microphone =>
    rcases h : inp.microphone with _ | w <;>
      simp only [finalLedger, workingFinalStatus, h] <;>
      first | rfl | (split <;> rfl)
  case speaker =>
    rcases h : inp.speaker with _ | ⟨l, r⟩ <;>
      simp only [finalLedger, speakerFinalStatus, h] <;>
      first | rfl | (split <;> rfl)
  case sensors => rfl

theorem filter_length_partition (ledger : StepId → LedgerStatus) :
    ∀ l : List StepId, (∀ x ∈ l, isFinal (ledger x) = true) →
      ((l.filter (fun x => ledger x = .passed)).length
        + (l.filter (fun x => ledger x = .warning)).length
        + (l.filter (fun x => ledger x = .failed)).length
        + (l.filter (fun x => ledger x = .skipped)).length = l.length) ∧
      (l.filter (fun x => ledger x = .pending)).length = 0 ∧
      (l.filter (fun x => ledger x = .testing)).length = 0 := by
  intro l
  induction l with
  | nil => simp
  | cons a t ih =>
      intro h
      have ha := h a (List.mem_cons_self a t)
      have ht := ih (fun x hx => h x (List.mem_cons_of_mem a hx))
      obtain ⟨h1, h2, h3⟩ := ht
      cases hsa : ledger a <;> rw [hsa] at ha
      case pending => simp [isFinal] at ha
      case testing => simp [isFinal] at ha
      all_goals simp only [List.filter_cons, hsa, List.length_cons]
      all_goals simp only [decide_True, decide_False, if_true, if_false,
        decide_eq_true_eq, List.length_cons, reduceCtorEq, reduceIte, decide_eq_false_iff_not]
      all_goals refine ⟨by omega, by simpa using h2, by simpa using h3⟩

theorem filter_length_two_le (p q : StepId → Bool) (h : ∀ x, p x = true → q x = false) :
    ∀ l : List StepId, (l.filter p).length + (l.filter q).length ≤ l.length := by
  intro l
  induction l with
  | nil => simp
  | cons a t ih =>
      cases hp : p a
      · cases hq : q a <;> simp [List.filter_cons, hp, hq] <;> omega
      · have hq := h a hp
        simp [List.filter_cons, hp, hq]
        omega

theorem intFloor_eq_ratFloor (q : ℚ) : ⌊q⌋ = Rat.floor q := by
  rw [Rat.floor_def, Rat.floor_def']

theorem jsRound_eq_round (q : ℚ) : jsRound q = round q := by
  rw [jsRound, round_eq, intFloor_eq_ratFloor]

/-- C1 (counterexample): with all probes healthy, `startDetection`
suspends the run at the screen step, yet calling `handleTestComplete`
for the keyboard step — a step id that is not the currently suspended
one — is processed rather than rejected: it flips the keyboard ledger
entry from `pending` to `passed` and raises no error (the handlers
return an ordinary state; no error channel exists in the code). -/
theorem mismatched_resume_mutates_ledger :
    (startDetection envAllGood initialSession).activeTest = some .screen ∧
    (startDetection envAllGood initialSession).ledger .keyboard = .pending ∧
    (handleTestComplete envAllGood (startDetection envAllGood initialSession)
        .keyboard (.keyboard true 78 78)).ledger .keyboard = .passed ∧
    StepId.keyboard ≠ StepId.screen :=
  ⟨rfl, rfl, rfl, by decide⟩

/-- C1 (amended): the resume operations perform no check against the
suspended step: for every session state — in particular one suspended at
a different step — `handleTestSkip` marks the named step `skipped` and
`handleTestComplete` records the outcome-derived status for the named
step, silently; no `ProtocolViolation` (or any other) error is ever
raised. -/
theorem resume_handlers_do_not_check_active (env : Env) (st : SessionState) :
    (∀ t : StepId, (handleTestSkip env st t).ledger t = .skipped) ∧
    (∀ d : Bool, (handleTestComplete env st .screen (.screen d)).ledger .screen =
      (if d then .warning else .passed)) ∧
    (∀ a tc tk, (handleTestComplete env st .keyboard (.keyboard a tc tk)).ledger .keyboard =
      (if a then .passed else .warning)) ∧
    (∀ c d g, (handleTestComplete env st .trackpad (.trackpad c d g)).ledger .trackpad =
      (if c && d && g then .passed else .warning)) ∧
    (∀ w, (handleTestComplete env st .camera (.camera w)).ledger .camera =
      (if w then .passed else .failed)) ∧
    (∀ w, (handleTestComplete env st .microphone (.microphone w)).ledger .microphone =
      (if w then .passed else .failed)) ∧
    (∀ l r, (handleTestComplete env st .speaker (.speaker l r)).ledger .speaker =
      (if l && r then .passed else .warning)) := by
  refine ⟨fun t => ?_, fun d => rfl, fun a tc tk => rfl, fun c d g => rfl,
    fun w => rfl, fun w => rfl, fun l r => rfl⟩
  cases t <;> rfl

/-- C4 (counterexample): a battery health of 79.5 satisfies
`60 ≤ health < 80`, for which the claim requires `warning`, but the code
rounds first (`Math.round(79.5) = 80`) and marks the step `passed`. -/
theorem battery_rounding_counterexample :
    ((60:ℚ) ≤ 159/2 ∧ (159/2:ℚ) < 80) ∧
    batteryLedgerStatus (.ok (some ⟨159/2, 0, 0, 0, 0, false⟩)) = .passed := by
  refine ⟨⟨by norm_num, by norm_num⟩, ?_⟩
  have h : jsRound ((159:ℚ)/2) = 80 := by
    rw [jsRound_eq_round, round_eq]; norm_num
  simp [batteryLedgerStatus, h]

/-- C4 (amended): the battery thresholds act on the rounded health:
`passed` iff `health ≥ 79.5` (that is, `Math.round(health) ≥ 80`),
`warning` iff `59.5 ≤ health < 79.5`, `failed` iff `health < 59.5`; a
failed probe or a `null` payload yields `warning`. -/
theorem batteryLedgerStatus_rounded_thresholds :
    (∀ b : BatteryData,
      batteryLedgerStatus (.ok (some b)) =
        (if (159:ℚ)/2 ≤ b.health then .passed
         else if (119:ℚ)/2 ≤ b.health then .warning
         else .failed)) ∧
    batteryLedgerStatus (.ok none) = .warning ∧
    batteryLedgerStatus (.error ()) = .warning := by
  refine ⟨fun b => ?_, rfl, rfl⟩
  have h80 : ((80:ℤ) ≤ jsRound b.health) ↔ (159:ℚ)/2 ≤ b.health := by
    rw [jsRound_eq_round, round_eq, Int.le_floor]
    push_cast
    constructor <;> intro h <;> linarith
  have h60 : ((60:ℤ) ≤ jsRound b.health) ↔ (119:ℚ)/2 ≤ b.health := by
    rw [jsRound_eq_round, round_eq, Int.le_floor]
    push_cast
    constructor <;> intro h <;> linarith
  simp only [batteryLedgerStatus, ge_iff_le]
  by_cases hc : (159:ℚ)/2 ≤ b.health
  · rw [if_pos (h80.mpr hc), if_pos hc]
  · rw [if_neg (fun h => hc (h80.mp h)), if_neg hc]
    by_cases hc2 : (119:ℚ)/2 ≤ b.health
    · rw [if_pos (h60.mpr hc2), if_pos hc2]
    · rw [if_neg (fun h => hc2 (h60.mp h)), if_neg hc2]

/-- C5: on a successful storage probe the ledger status is `passed`
exactly when the SMART text indicates healthy or verified
(case-insensitive substring test) and `warning` otherwise; a failed
probe or a `null` payload is optimistically `passed`. -/
theorem storage_rule_characterization (sd : StorageData) :
    (storageLedgerStatus (.ok (some sd)) = .passed ↔
      smartIndicatesHealthy sd.smart_status = true) ∧
    (storageLedgerStatus (.ok (some sd)) = .warning ↔
      smartIndicatesHealthy sd.smart_status = false) ∧
    storageLedgerStatus (.ok none) = .passed ∧
    storageLedgerStatus (.error ()) = .passed := by
  cases h : smartIndicatesHealthy sd.smart_status <;>
    simp [storageLedgerStatus, h]

/-- General property of the score formula: for any ledger whatsoever it
computes `round(((passedCount + warningCount * 0.5) / 12) * 100)` —
every catalog step counts in the denominator while only `passed` and
`warning` entries feed the numerator — and the result is an integer in
`[0, 100]`.  Note the program feeds this formula the stale snapshot
ledger, not the final one (see `programReport`). -/
theorem overallScore_formula_bounds (ledger : StepId → LedgerStatus) :
    overallScore ledger =
      round ((((statusCount ledger .passed : ℚ) + (statusCount ledger .warning : ℚ) * 0.5)
        / (catalog.length : ℚ)) * 100) ∧
    catalog.length = 12 ∧
    0 ≤ overallScore ledger ∧ overallScore ledger ≤ 100 := by
  have hdisj : ∀ x, (decide (ledger x = LedgerStatus.passed)) = true →
      (decide (ledger x = LedgerStatus.warning)) = false := by
    intro x h
    simp only [decide_eq_true_eq] at h
    simp [h]
  have hPW : statusCount ledger .passed + statusCount ledger .warning ≤ catalog.length :=
    filter_length_two_le _ _ hdisj catalog
  have hlen : (catalog.length : ℚ) = 12 := by norm_num [catalog]
  have hcast : ((statusCount ledger .passed : ℚ) + (statusCount ledger .warning : ℚ)) ≤ 12 := by
    have h12 : catalog.length = 12 := rfl
    rw [h12] at hPW
    exact_mod_cast hPW
  have hW : (0:ℚ) ≤ (statusCount ledger .warning : ℚ) := by positivity
  have hP : (0:ℚ) ≤ (statusCount ledger .passed : ℚ) := by positivity
  have hq0 : (0:ℚ) ≤ ((statusCount ledger .passed : ℚ)
      + (statusCount ledger .warning : ℚ) * 0.5) / (catalog.length : ℚ) * 100 := by
    rw [hlen]; positivity
  have hq1 : ((statusCount ledger .passed : ℚ)
      + (statusCount ledger .warning : ℚ) * 0.5) / (catalog.length : ℚ) * 100 ≤ 100 := by
    rw [hlen, div_mul_eq_mul_div, div_le_iff₀ (by norm_num : (0:ℚ) < 12)]
    nlinarith [hcast, hW]
  refine ⟨by rw [overallScore, jsRound_eq_round], rfl, ?_, ?_⟩
  · rw [overallScore, jsRound_eq_round, round_eq]
    exact Int.le_floor.mpr (by push_cast; linarith)
  · rw [overallScore, jsRound_eq_round, round_eq]
    have hfl : (⌊((statusCount ledger .passed : ℚ)
        + (statusCount ledger .warning : ℚ) * 0.5) / (catalog.length : ℚ) * 100 + 1/2⌋ : ℤ)
        < 101 := Int.floor_lt.mpr (by push_cast; linarith)
    omega

theorem filter_of_forall_category (l : List Issue) (c c' : String)
    (h : ∀ i ∈ l, i.category = c) :
    l.filter (fun i => i.category = c') = if c = c' then l else [] := by
  induction l with
  | nil => simp
  | cons a t ih =>
      have ha := h a (List.mem_cons_self a t)
      have ht := ih (fun x hx => h x (List.mem_cons_of_mem a hx))
      by_cases hc : c = c'
      · subst hc
        simp [List.filter_cons, ha, ht]
      · simp [List.filter_cons, ha, hc, ht]

theorem batteryHealthIssues_cat (r : DetectionReport) :
    ∀ i ∈ batteryHealthIssues r, i.category = "battery" := by
  intro i hi
  simp only [batteryHealthIssues] at hi
  split at hi <;> simp at hi
  rw [hi]

theorem batteryCycleIssues_cat (r : DetectionReport) :
    ∀ i ∈ batteryCycleIssues r, i.category = "battery" := by
  intro i hi
  simp only [batteryCycleIssues] at hi
  split at hi <;> simp at hi
  rw [hi]

theorem storageIssues_cat (r : DetectionReport) :
    ∀ i ∈ storageIssues r, i.category = "storage" := by
  intro i hi
  simp only [storageIssues] at hi
  split at hi <;> simp at hi
  rw [hi]

theorem screenIssues_cat (r : DetectionReport) :
    ∀ i ∈ screenIssues r, i.category = "screen" := by
  intro i hi
  simp only [screenIssues] at hi
  split at hi <;> simp at hi
  rw [hi]

theorem keyboardIssues_cat (r : DetectionReport) :
    ∀ i ∈ keyboardIssues r, i.category = "keyboard" := by
  intro i hi
  simp only [keyboardIssues] at hi
  repeat' split at hi
  all_goals simp_all

theorem trackpadIssues_cat (r : DetectionReport) :
    ∀ i ∈ trackpadIssues r, i.category = "trackpad" := by
  intro i hi
  simp only [trackpadIssues] at hi
  repeat' split at hi
  all_goals simp_all

theorem cameraIssues_cat (r : DetectionReport) :
    ∀ i ∈ cameraIssues r, i.category = "camera" := by
  intro i hi
  simp only [cameraIssues] at hi
  split at hi <;> simp at hi
  rw [hi]

theorem microphoneIssues_cat (r : DetectionReport) :
    ∀ i ∈ microphoneIssues r, i.category = "microphone" := by
  intro i hi
  simp only [microphoneIssues] at hi
  split at hi <;> simp at hi
  rw [hi]

theorem speakerIssues_cat (r : DetectionReport) :
    ∀ i ∈ speakerIssues r, i.category = "speaker" := by
  intro i hi
  simp only [speakerIssues] at hi
  repeat' split at hi
  all_goals simp_all

theorem refurbishmentIssues_cat (r : DetectionReport) :
    ∀ i ∈ refurbishmentIssues r, i.category = "refurbishment" := by
  intro i hi
  rcases hr : r.refurbishment with _ | rf <;>
    simp only [refurbishmentIssues, hr] at hi
  · exact absurd hi (List.not_mem_nil i)
  · split at hi
    · simp only [List.mem_append, List.mem_map] at hi
      rcases hi with (⟨p, _, rfl⟩ | hi) | ⟨ind, _, rfl⟩
      · rfl
      · rcases hp : rf.details.refurbProgram with _ | prog <;>
          simp only [hp] at hi
        · exact absurd hi (List.not_mem_nil i)
        · split at hi
          · exact absurd hi (List.not_mem_nil i)
          · rw [List.mem_singleton] at hi
            rw [hi]
      · rfl
    · exact absurd hi (List.not_mem_nil i)

/-- C7: the classifier produces a battery-health issue exactly when
`health < 80` (severity `failed` below 60, `warning` otherwise) followed
by a battery-cycle issue exactly when `cycleCount > 500` (severity
`failed` above 800, `warning` otherwise), and no other rule contributes
a battery-category issue. -/
theorem collectIssues_battery_rules (r : DetectionReport) :
    (collectIssues r).filter (fun i => i.category = "battery") =
      (if r.battery.health < 80 then
        [{ category := "battery"
           level := if r.battery.health < 60 then IssueLevel.failed else IssueLevel.warning
           data := some (toString (jsRound r.battery.health) ++ "%") }]
       else [])
      ++ (if r.battery.cycleCount > 500 then
        [{ category := "battery"
           level := if r.battery.cycleCount > 800 then IssueLevel.failed else IssueLevel.warning
           data := some (toString r.battery.cycleCount ++ " cycles") }]
       else []) := by
  show (collectIssues r).filter (fun i => i.category = "battery") =
    batteryHealthIssues r ++ batteryCycleIssues r
  unfold collectIssues
  rw [List.filter_append, List.filter_append, List.filter_append, List.filter_append,
    List.filter_append, List.filter_append, List.filter_append, List.filter_append,
    List.filter_append,
    filter_of_forall_category _ _ _ (batteryHealthIssues_cat r),
    filter_of_forall_category _ _ _ (batteryCycleIssues_cat r),
    filter_of_forall_category _ _ _ (storageIssues_cat r),
    filter_of_forall_category _ _ _ (screenIssues_cat r),
    filter_of_forall_category _ _ _ (keyboardIssues_cat r),
    filter_of_forall_category _ _ _ (trackpadIssues_cat r),
    filter_of_forall_category _ _ _ (cameraIssues_cat r),
    filter_of_forall_category _ _ _ (microphoneIssues_cat r),
    filter_of_forall_category _ _ _ (speakerIssues_cat r),
    filter_of_forall_category _ _ _ (refurbishmentIssues_cat r)]
  simp

theorem pairwise_rank_const (l : List Issue) (c : String)
    (h : ∀ i ∈ l, i.category = c) :
    l.Pairwise (fun a b => catRank a.category ≤ catRank b.category) := by
  induction l with
  | nil => exact List.Pairwise.nil
  | cons a t ih =>
      refine List.Pairwise.cons (fun b hb => ?_)
        (ih (fun x hx => h x (List.mem_cons_of_mem a hx)))
      rw [h a (List.mem_cons_self a t), h b (List.mem_cons_of_mem a hb)]

theorem collectIssues_pairwise_rank (r : DetectionReport) :
    (collectIssues r).Pairwise (fun a b => catRank a.category ≤ catRank b.category) := by
  have hb10 : ∀ b ∈ refurbishmentIssues r, 8 ≤ catRank b.category := by
    intro b hb; rw [refurbishmentIssues_cat r b hb]; decide
  have hb9 : ∀ b ∈ speakerIssues r ++ refurbishmentIssues r, 7 ≤ catRank b.category := by
    intro b hb
    rcases List.mem_append.mp hb with h | h
    · rw [speakerIssues_cat r b h]; decide
    · exact le_trans (by decide) (hb10 b h)
  have hb8 : ∀ b ∈ microphoneIssues r ++ (speakerIssues r ++ refurbishmentIssues r),
      6 ≤ catRank b.category := by
    intro b hb
    rcases List.mem_append.mp hb with h | h
    · rw [microphoneIssues_cat r b h]; decide
    · exact le_trans (by decide) (hb9 b h)
  have hb7 : ∀ b ∈ cameraIssues r ++ (microphoneIssues r ++ (speakerIssues r
      ++ refurbishmentIssues r)), 5 ≤ catRank b.category := by
    intro b hb
    rcases List.mem_append.mp hb with h | h
    · rw [cameraIssues_cat r b h]; decide
    · exact le_trans (by decide) (hb8 b h)
  have hb6 : ∀ b ∈ trackpadIssues r ++ (cameraIssues r ++ (microphoneIssues r
      ++ (speakerIssues r ++ refurbishmentIssues r))), 4 ≤ catRank b.category := by
    intro b hb
    rcases List.mem_append.mp hb with h | h
    · rw [trackpadIssues_cat r b h]; decide
    · exact le_trans (by decide) (hb7 b h)
  have hb5 : ∀ b ∈ keyboardIssues r ++ (trackpadIssues r ++ (cameraIssues r
      ++ (microphoneIssues r ++ (speakerIssues r ++ refurbishmentIssues r)))),
      3 ≤ catRank b.category := by
    intro b hb
    rcases List.mem_append.mp hb with h | h
    · rw [keyboardIssues_cat r b h]; decide
    · exact le_trans (by decide) (hb6 b h)
  have hb4 : ∀ b ∈ screenIssues r ++ (keyboardIssues r ++ (trackpadIssues r
      ++ (cameraIssues r ++ (microphoneIssues r ++ (speakerIssues r
      ++ refurbishmentIssues r))))), 2 ≤ catRank b.category := by
    intro b hb
    rcases List.mem_append.mp hb with h | h
    · rw [screenIssues_cat r b h]; decide
    · exact le_trans (by decide) (hb5 b h)
  have hb3 : ∀ b ∈ storageIssues r ++ (screenIssues r ++ (keyboardIssues r
      ++ (trackpadIssues r ++ (cameraIssues r ++ (microphoneIssues r
      ++ (speakerIssues r ++ refurbishmentIssues r)))))), 1 ≤ catRank b.category := by
    intro b hb
    rcases List.mem_append.mp hb with h | h
    · rw [storageIssues_cat r b h]; decide
    · exact le_trans (by decide) (hb4 b h)
  unfold collectIssues
  simp only [List.append_assoc]
  refine List.pairwise_append.mpr ⟨pairwise_rank_const _ _ (batteryHealthIssues_cat r), ?_,
    fun a ha b _ => by rw [batteryHealthIssues_cat r a ha]; exact le_trans (by decide) (Nat.zero_le _)⟩
  refine List.pairwise_append.mpr ⟨pairwise_rank_const _ _ (batteryCycleIssues_cat r), ?_,
    fun a ha b _ => by rw [batteryCycleIssues_cat r a ha]; exact le_trans (by decide) (Nat.zero_le _)⟩
  refine List.pairwise_append.mpr ⟨pairwise_rank_const _ _ (storageIssues_cat r), ?_,
    fun a ha b hb => by rw [storageIssues_cat r a ha]; exact le_trans (by decide) (hb4 b hb)⟩
  refine List.pairwise_append.mpr ⟨pairwise_rank_const _ _ (screenIssues_cat r), ?_,
    fun a ha b hb => by rw [screenIssues_cat r a ha]; exact le_trans (by decide) (hb5 b hb)⟩
  refine List.pairwise_append.mpr ⟨pairwise_rank_const _ _ (keyboardIssues_cat r), ?_,
    fun a ha b hb => by rw [keyboardIssues_cat r a ha]; exact le_trans (by decide) (hb6 b hb)⟩
  refine List.pairwise_append.mpr ⟨pairwise_rank_const _ _ (trackpadIssues_cat r), ?_,
    fun a ha b hb => by rw [trackpadIssues_cat r a ha]; exact le_trans (by decide) (hb7 b hb)⟩
  refine List.pairwise_append.mpr ⟨pairwise_rank_const _ _ (cameraIssues_cat r), ?_,
    fun a ha b hb => by rw [cameraIssues_cat r a ha]; exact le_trans (by decide) (hb8 b hb)⟩
  refine List.pairwise_append.mpr ⟨pairwise_rank_const _ _ (microphoneIssues_cat r), ?_,
    fun a ha b hb => by rw [microphoneIssues_cat r a ha]; exact le_trans (by decide) (hb9 b hb)⟩
  refine List.pairwise_append.mpr ⟨pairwise_rank_const _ _ (speakerIssues_cat r),
    pairwise_rank_const _ _ (refurbishmentIssues_cat r),
    fun a ha b hb => by rw [speakerIssues_cat r a ha]; exact le_trans (by decide) (hb10 b hb)⟩

theorem refurbishmentIssues_eraseInfo (r : DetectionReport) :
    refurbishmentIssues (eraseInfoIndicators r) = refurbishmentIssues r := by
  rcases hr : r.refurbishment with _ | rf <;>
    simp only [refurbishmentIssues, eraseInfoIndicators, hr, Option.map_none', Option.map_some']
  split
  · refine congrArg _ (congrArg _ ?_)
    rw [List.filter_filter]
    refine List.filter_congr ?_
    intro a _
    by_cases hw : a.severity = "warning"
    · simp [hw]
    · by_cases hc : a.severity = "critical"
      · simp [hc]
      · simp [hw, hc]
  · rfl

/-- C8: the classifier's output order is fixed — battery (health, then
cycle count), storage, screen, keyboard, trackpad, camera, microphone,
speaker, then refurbishment-derived issues (its category ranks are
non-decreasing along the list); dropping severity-`info` refurbishment
indicators from the input leaves the output unchanged (an `info`
indicator never produces an issue); and the refurbishment-category
issues are exactly: one per replaced part, then the
certified-refurbishment program when present, then one per
warning/critical indicator. -/
theorem collectIssues_order_refurb_info (r : DetectionReport) :
    (collectIssues r).Pairwise (fun a b => catRank a.category ≤ catRank b.category) ∧
    collectIssues (eraseInfoIndicators r) = collectIssues r ∧
    (collectIssues r).filter (fun i => i.category = "refurbishment") =
      (match r.refurbishment with
       | some refurb =>
           if refurb.isRefurbished then
             (refurb.replacedParts.map (fun _part =>
               { category := "refurbishment", level := IssueLevel.warning, data := none }))
             ++ (match refurb.details.refurbProgram with
                 | some prog =>
                     if prog = "" then []
                     else [{ category := "refurbishment", level := IssueLevel.warning,
                             data := some prog }]
                 | none => [])
             ++ ((refurb.indicators.filter
                   (fun i => i.severity = "warning" || i.severity = "critical")).map (fun i =>
                 { category := "refurbishment"
                   level := if i.severity = "critical" then IssueLevel.failed
                            else IssueLevel.warning
                   data := none }))
           else []
       | none => []) := by
  refine ⟨collectIssues_pairwise_rank r, ?_, ?_⟩
  · show batteryHealthIssues (eraseInfoIndicators r) ++ batteryCycleIssues (eraseInfoIndicators r)
      ++ storageIssues (eraseInfoIndicators r) ++ screenIssues (eraseInfoIndicators r)
      ++ keyboardIssues (eraseInfoIndicators r) ++ trackpadIssues (eraseInfoIndicators r)
      ++ cameraIssues (eraseInfoIndicators r) ++ microphoneIssues (eraseInfoIndicators r)
      ++ speakerIssues (eraseInfoIndicators r) ++ refurbishmentIssues (eraseInfoIndicators r)
      = collectIssues r
    rw [refurbishmentIssues_eraseInfo r]
    rfl
  · show (collectIssues r).filter (fun i => i.category = "refurbishment")
      = refurbishmentIssues r
    unfold collectIssues
    rw [List.filter_append, List.filter_append, List.filter_append, List.filter_append,
      List.filter_append, List.filter_append, List.filter_append, List.filter_append,
      List.filter_append,
      filter_of_forall_category _ _ _ (batteryHealthIssues_cat r),
      filter_of_forall_category _ _ _ (batteryCycleIssues_cat r),
      filter_of_forall_category _ _ _ (storageIssues_cat r),
      filter_of_forall_category _ _ _ (screenIssues_cat r),
      filter_of_forall_category _ _ _ (keyboardIssues_cat r),
      filter_of_forall_category _ _ _ (trackpadIssues_cat r),
      filter_of_forall_category _ _ _ (cameraIssues_cat r),
      filter_of_forall_category _ _ _ (microphoneIssues_cat r),
      filter_of_forall_category _ _ _ (speakerIssues_cat r),
      filter_of_forall_category _ _ _ (refurbishmentIssues_cat r)]
    simp

/-- C9: skipping the screen test stores ledger status `skipped`, a value
outside the declared `DetectionStatus` union, and the `StatusBadge`
config lookup has no entry for it (the destructured lookup is
`undefined` at runtime), while every status of the declared union does
have an entry. -/
theorem skipped_status_escapes_badge_config :
    (handleTestSkip envAllGood (startDetection envAllGood initialSession) .screen).ledger .screen
        = .skipped ∧
    declaredDetectionStatus .skipped = false ∧
    statusBadgeConfig .skipped = none ∧
    ((statusBadgeConfig .passed).isSome = true ∧ (statusBadgeConfig .warning).isSome = true ∧
     (statusBadgeConfig .failed).isSome = true ∧ (statusBadgeConfig .pending).isSome = true ∧
     (statusBadgeConfig .testing).isSome = true) :=
  ⟨rfl, rfl, rfl, rfl, rfl, rfl, rfl, rfl⟩

theorem collectIssues_filter_storage (r : DetectionReport) :
    (collectIssues r).filter (fun i => i.category = "storage") = storageIssues r := by
  unfold collectIssues
  rw [List.filter_append, List.filter_append, List.filter_append, List.filter_append,
    List.filter_append, List.filter_append, List.filter_append, List.filter_append,
    List.filter_append,
    filter_of_forall_category _ _ _ (batteryHealthIssues_cat r),
    filter_of_forall_category _ _ _ (batteryCycleIssues_cat r),
    filter_of_forall_category _ _ _ (storageIssues_cat r),
    filter_of_forall_category _ _ _ (screenIssues_cat r),
    filter_of_forall_category _ _ _ (keyboardIssues_cat r),
    filter_of_forall_category _ _ _ (trackpadIssues_cat r),
    filter_of_forall_category _ _ _ (cameraIssues_cat r),
    filter_of_forall_category _ _ _ (microphoneIssues_cat r),
    filter_of_forall_category _ _ _ (speakerIssues_cat r),
    filter_of_forall_category _ _ _ (refurbishmentIssues_cat r)]
  simp

/-- C10: report assembly maps the raw SMART value to `healthy` exactly
when it is the literal string `Verified`; a failed or absent probe and
every other raw value — including ones like `healthy` that the
orchestrator itself marks `passed` — become `warning`, and a `warning`
report value makes the classifier emit a single severity-`failed`
storage issue. -/
theorem smartStatus_verified_only :
    (∀ o : Option StorageData, assembleSmartStatus o = "healthy" ↔
        (∃ sd, o = some sd ∧ sd.smart_status = "Verified")) ∧
    assembleSmartStatus none = "warning" ∧
    (∀ sd : StorageData, smartIndicatesHealthy sd.smart_status = true →
        sd.smart_status ≠ "Verified" →
        storageLedgerStatus (.ok (some sd)) = .passed ∧
        assembleSmartStatus (some sd) = "warning") ∧
    (∀ r : DetectionReport, r.storage.smartStatus = "warning" →
        (collectIssues r).filter (fun i => i.category = "storage") =
          [{ category := "storage", level := .failed, data := some "warning" }]) := by
  refine ⟨?_, rfl, ?_, ?_⟩
  · intro o
    rcases o with _ | sd
    · simp [assembleSmartStatus]
    · by_cases h : sd.smart_status = "Verified" <;> simp [assembleSmartStatus, h]
  · intro sd h1 h2
    exact ⟨by simp [storageLedgerStatus, h1], by simp [assembleSmartStatus, h2]⟩
  · intro r hr
    rw [collectIssues_filter_storage r]
    simp [storageIssues, hr]

/-- C10 (witness): the raw SMART value `healthy` makes the orchestrator
mark the storage step `passed` while report assembly stores `warning`. -/
theorem smartStatus_verified_only_witness :
    storageLedgerStatus (.ok (some ⟨"disk0", "healthy"⟩)) = .passed ∧
    assembleSmartStatus (some ⟨"disk0", "healthy"⟩) = "warning" :=
  smartStatus_verified_only.2.2.1 ⟨"disk0", "healthy"⟩ (by decide) (by decide)

theorem jsRound_100 : jsRound (100:ℚ) = 100 := by
  rw [jsRound_eq_round]
  norm_num [round_eq]

theorem allPass_finalLedger : ∀ x, finalLedger inputsAllPass x = .passed := by
  intro x
  cases x <;> first
    | rfl
    | simp [finalLedger, inputsAllPass, envAllGood, batteryLedgerStatus, jsRound_100]

theorem allPass_snapshot_ledger_eq :
    (speakerRenderSnapshot inputsAllPass).ledger = snapshotLedger inputsAllPass :=
  funext (speakerRenderSnapshot_ledger inputsAllPass)

theorem allPass_snapshot_counts :
    statusCount (snapshotLedger inputsAllPass) .passed = 10 ∧
    statusCount (snapshotLedger inputsAllPass) .warning = 0 ∧
    statusCount (snapshotLedger inputsAllPass) .failed = 0 := by
  refine ⟨?_, ?_, ?_⟩ <;>
    simp [statusCount, catalog, snapshotLedger, allPass_finalLedger]

theorem allPass_programReport_score : (programReport inputsAllPass).overallScore = 83 := by
  obtain ⟨hc10, hcw, -⟩ := allPass_snapshot_counts
  show overallScore (speakerRenderSnapshot inputsAllPass).ledger = 83
  rw [allPass_snapshot_ledger_eq, overallScore, hc10, hcw, jsRound_eq_round]
  norm_num [catalog, round_eq]

/-- C2 (code bug): on the all-success, all-pass run the true component
state ends `completed` with every catalog step `passed`, yet the
program's report says overall score 83 with summary 10/0/0 — the stale
speaker-render closure that runs `finishDetection` still has the
speaker and sensors steps `pending` — and the issue list is not empty:
report assembly hardcodes `testedKeys: []`, so the classifier's
keyboard rule sees a tested-key fraction of 0 and emits a keyboard
warning issue even though all 78 keys were registered. -/
theorem allPass_run_reports_83_with_keyboard_issue :
    (runFull inputsAllPass).finished = true ∧
    (∀ x, (runFull inputsAllPass).ledger x = .passed) ∧
    (programReport inputsAllPass).overallScore = 83 ∧
    (programReport inputsAllPass).summaryPassed = 10 ∧
    (programReport inputsAllPass).summaryWarning = 0 ∧
    (programReport inputsAllPass).summaryFailed = 0 ∧
    collectIssues (programReport inputsAllPass) =
      [{ category := "keyboard", level := IssueLevel.warning, data := none }] := by
  obtain ⟨hc10, hcw, hcf⟩ := allPass_snapshot_counts
  refine ⟨runFull_finished inputsAllPass,
    fun x => (runFull_ledger inputsAllPass x).trans (allPass_finalLedger x),
    allPass_programReport_score, ?_, ?_, ?_, ?_⟩
  · show statusCount (speakerRenderSnapshot inputsAllPass).ledger .passed = 10
    rw [allPass_snapshot_ledger_eq]; exact hc10
  · show statusCount (speakerRenderSnapshot inputsAllPass).ledger .warning = 0
    rw [allPass_snapshot_ledger_eq]; exact hcw
  · show statusCount (speakerRenderSnapshot inputsAllPass).ledger .failed = 0
    rw [allPass_snapshot_ledger_eq]; exact hcf
  · have hbat : (programReport inputsAllPass).battery.health = 100 := by
      rw [show (programReport inputsAllPass).battery.health
        = jsOrQ (((speakerRenderSnapshot inputsAllPass).batteryData).map (fun b => b.health)) 100
        from rfl,
        show (speakerRenderSnapshot inputsAllPass).batteryData
        = some ⟨100, 10, 100, 100, 100, false⟩ from rfl]
      norm_num [jsOrQ]
    have hkb : (programReport inputsAllPass).interactive.keyboard
        = { tested := true, skipped := false, testedKeys := [], totalKeys := 78,
            failedKeys := [] } := rfl
    have hseg_bh : batteryHealthIssues (programReport inputsAllPass) = [] := by
      simp only [batteryHealthIssues, hbat]
      norm_num
    have hseg_kb : keyboardIssues (programReport inputsAllPass) =
        [{ category := "keyboard", level := IssueLevel.warning, data := none }] := by
      simp only [keyboardIssues, hkb]
      norm_num
    show batteryHealthIssues (programReport inputsAllPass)
      ++ batteryCycleIssues (programReport inputsAllPass)
      ++ storageIssues (programReport inputsAllPass)
      ++ screenIssues (programReport inputsAllPass)
      ++ keyboardIssues (programReport inputsAllPass)
      ++ trackpadIssues (programReport inputsAllPass)
      ++ cameraIssues (programReport inputsAllPass)
      ++ microphoneIssues (programReport inputsAllPass)
      ++ speakerIssues (programReport inputsAllPass)
      ++ refurbishmentIssues (programReport inputsAllPass)
      = [{ category := "keyboard", level := IssueLevel.warning, data := none }]
    rw [hseg_bh, hseg_kb,
      show batteryCycleIssues (programReport inputsAllPass) = [] from rfl,
      show storageIssues (programReport inputsAllPass) = [] from rfl,
      show screenIssues (programReport inputsAllPass) = [] from rfl,
      show trackpadIssues (programReport inputsAllPass) = [] from rfl,
      show cameraIssues (programReport inputsAllPass) = [] from rfl,
      show microphoneIssues (programReport inputsAllPass) = [] from rfl,
      show speakerIssues (programReport inputsAllPass) = [] from rfl,
      show refurbishmentIssues (programReport inputsAllPass) = [] from rfl]
    rfl

/-- C3 (code bug): the claimed score formula over the final ledger gives
100 on the all-pass run (all twelve steps passed), but the program
reports 83: the counts are computed from the stale speaker-render
snapshot, in which the speaker and sensors steps are still pending, not
from the final ledger. -/
theorem allPass_score_differs_from_final_ledger_formula :
    (∀ x, (runFull inputsAllPass).ledger x = .passed) ∧
    overallScore (runFull inputsAllPass).ledger = 100 ∧
    (programReport inputsAllPass).overallScore = 83 := by
  have hld : (runFull inputsAllPass).ledger = finalLedger inputsAllPass :=
    funext (runFull_ledger inputsAllPass)
  have hcp : statusCount (finalLedger inputsAllPass) .passed = 12 := by
    simp [statusCount, catalog, allPass_finalLedger]
  have hcw : statusCount (finalLedger inputsAllPass) .warning = 0 := by
    simp [statusCount, catalog, allPass_finalLedger]
  refine ⟨fun x => (runFull_ledger inputsAllPass x).trans (allPass_finalLedger x), ?_,
    allPass_programReport_score⟩
  rw [hld, overallScore, hcp, hcw, jsRound_eq_round]
  norm_num [catalog, round_eq]

/-- C6 (code bug): the report's summary counts come from the stale
speaker-render snapshot: on the all-pass run they are 10/0/0 while the
final ledger has no skipped, pending or testing step, so the summary
counts plus the final ledger's skipped and pending counts sum to 10,
not to the catalog size 12 — the two missing steps are exactly the
speaker and sensors entries still `pending` in the snapshot that
`finishDetection` reads. -/
theorem allPass_summary_misses_snapshot_pending_steps :
    (runFull inputsAllPass).finished = true ∧
    (programReport inputsAllPass).summaryPassed = 10 ∧
    (programReport inputsAllPass).summaryWarning = 0 ∧
    (programReport inputsAllPass).summaryFailed = 0 ∧
    statusCount (runFull inputsAllPass).ledger .skipped = 0 ∧
    statusCount (runFull inputsAllPass).ledger .pending = 0 ∧
    statusCount (runFull inputsAllPass).ledger .testing = 0 ∧
    (speakerRenderSnapshot inputsAllPass).ledger .speaker = .pending ∧
    (speakerRenderSnapshot inputsAllPass).ledger .sensors = .pending ∧
    catalog.length = 12 := by
  obtain ⟨hc10, hcw, hcf⟩ := allPass_snapshot_counts
  have hld : (runFull inputsAllPass).ledger = finalLedger inputsAllPass :=
    funext (runFull_ledger inputsAllPass)
  refine ⟨runFull_finished inputsAllPass, ?_, ?_, ?_, ?_, ?_, ?_, ?_, ?_, rfl⟩
  · show statusCount (speakerRenderSnapshot inputsAllPass).ledger .passed = 10
    rw [allPass_snapshot_ledger_eq]; exact hc10
  · show statusCount (speakerRenderSnapshot inputsAllPass).ledger .warning = 0
    rw [allPass_snapshot_ledger_eq]; exact hcw
  · show statusCount (speakerRenderSnapshot inputsAllPass).ledger .failed = 0
    rw [allPass_snapshot_ledger_eq]; exact hcf
  · rw [hld]; simp [statusCount, catalog, allPass_finalLedger]
  · rw [hld]; simp [statusCount, catalog, allPass_finalLedger]
  · rw [hld]; simp [statusCount, catalog, allPass_finalLedger]
  · exact (speakerRenderSnapshot_ledger inputsAllPass .speaker).trans rfl
  · exact (speakerRenderSnapshot_ledger inputsAllPass .sensors).trans rfl
